import Mathlib

/-!
Verification of the humanoid-server relay core: a shallow embedding of
src/WebSocketManager.ts (connection registry, inbound frame handling,
broadcast, liveness sweep) and src/createHumanoidServer.ts (orchestrator
webhook handler and registration/heartbeat loop), with theorems settling the
specification claims about them.

Time is modelled in milliseconds as Nat (the code works with Date.getTime
millisecond values); elapsed time now - last uses truncated subtraction,
which agrees with the JavaScript signed difference on every comparison
against the positive thresholds used by the code. External nondeterminism
(generated ids, ISO timestamps, JSON parsing, network outcomes) is passed in
as explicit parameters.
-/

namespace HumanoidServer

/-- Ready-state constant WebSocket.OPEN from the ws library. -/
def WS_OPEN : Nat := 1

/-- Constant HEARTBEAT_INTERVAL of WebSocketManager (40 s sweep period, ms). -/
def WS_HEARTBEAT_INTERVAL : Nat := 40000

/-- Constant CONNECTION_TIMEOUT of WebSocketManager (80 s inactivity limit, ms). -/
def CONNECTION_TIMEOUT : Nat := 80000

/-- Constant HEARTBEAT_INTERVAL of createHumanoidServer.ts (30 s orchestrator
tick period, ms). -/
def HEARTBEAT_INTERVAL : Nat := 30000

/-- Enumeration of the type field of MessagesDataItem, from types.d.ts. -/
inductive MsgType
  | tts | text | motor | wait
deriving DecidableEq, Repr

/-- Structure MessagesDataItem from types.d.ts: the structured payload carried
by client frames and orchestrator webhooks. -/
structure MessagesDataItem where
  type : MsgType
  data : Option String := none
  action_id : Option String := none
  duration : Option Nat := none
deriving DecidableEq, Repr

/-- Values of the source field of MessageClient. -/
inductive Source
  | pilot | humanoid
deriving DecidableEq, Repr

/-- Structure MessageClient from types.d.ts: the RelayMessage envelope
broadcast to peers. -/
structure MessageClient where
  id : String
  type : MsgType
  data : MessagesDataItem
  timestamp : String
  source : Source
deriving DecidableEq, Repr

/-- Structure WebSocketClient from types.d.ts: one tracked connection. The
current ws.readyState of the transport is carried as a snapshot field. -/
structure WebSocketClient where
  id : String
  readyState : Nat
  connectedAt : Nat
  lastHeartbeat : Nat
deriving DecidableEq, Repr

/-- State of WebSocketManager: the clients map (a Map from client id to
WebSocketClient, modelled as the list of its entries in insertion order). -/
structure WMState where
  clients : List WebSocketClient
deriving DecidableEq, Repr

/-- Observable side effects of the registry and webhook operations. -/
inductive Effect
  | logInfo (s : String)
  | logError (s : String)
  | send (clientId : String) (payload : String)
  | terminate (clientId : String)
  | forwardCall (payload : MessagesDataItem)
deriving DecidableEq, Repr

/-- Membership test this.clients.has(clientId). -/
def hasClient (st : WMState) (clientId : String) : Bool :=
  st.clients.any (fun c => c.id == clientId)

/-- Mutation this.clients.get(clientId)!.lastHeartbeat = new Date(): stamp the
activity time of the tracked connection. -/
def updateHeartbeat (st : WMState) (clientId : String) (now : Nat) : WMState :=
  { clients := st.clients.map (fun c =>
      if c.id == clientId then { c with lastHeartbeat := now } else c) }

/-- Removal this.clients.delete(clientId). -/
def deleteClient (st : WMState) (clientId : String) : WMState :=
  { clients := st.clients.filter (fun c => c.id != clientId) }

/-- Serialization JSON.stringify of a MessageClient envelope. -/
def stringifyMessage (m : MessageClient) : String :=
  let ty := match m.type with
    | MsgType.tts => "tts" | MsgType.text => "text"
    | MsgType.motor => "motor" | MsgType.wait => "wait"
  let src := match m.source with
    | Source.pilot => "pilot" | Source.humanoid => "humanoid"
  let dataStr := match m.data.data with
    | none => "" | some s => s
  "\x7b\"id\":\"" ++ m.id ++ "\",\"type\":\"" ++ ty ++ "\",\"data\":\"" ++
    dataStr ++ "\",\"timestamp\":\"" ++ m.timestamp ++ "\",\"source\":\"" ++
    src ++ "\"\x7d"

/-- Method broadcast(message): serialize once, send the serialized string to
every tracked connection whose transport is open; skip the rest. -/
def broadcast (st : WMState) (message : MessageClient) : List Effect :=
  let messageStr := stringifyMessage message
  st.clients.filterMap (fun client =>
    if client.readyState == WS_OPEN then some (Effect.send client.id messageStr)
    else none)

/-- Method receiveData(message, source): build the RelayMessage envelope (the
generated message id and ISO timestamp are supplied as msgId and ts),
broadcast it, and return false. -/
def receiveData (st : WMState) (message : MessagesDataItem) (source : Source)
    (msgId ts : String) : List Effect × Bool :=
  let webSocketMessage : MessageClient :=
    { id := msgId, type := message.type, data := message,
      timestamp := ts, source := source }
  (broadcast st webSocketMessage, false)

/-- Check isHeartbeatMessage: the frame text equals the literal liveness
marker "heartbeat". -/
def isHeartbeatMessage (message : String) : Bool :=
  message == "heartbeat"

/-- Handler for the message event installed by initialize() for the connection
clientId. Parameter parse gives the outcome of JSON.parse on the frame text
(none models a thrown SyntaxError, landing in the catch block); forwarder is
the optional onSendToOrchestrator callback, returning the awaited boolean;
msgId and ts feed the envelope fields generated inside receiveData. -/
def handleMessage (st : WMState) (clientId : String) (raw : String)
    (parse : String → Option MessagesDataItem)
    (forwarder : Option (MessagesDataItem → Bool))
    (now : Nat) (msgId ts : String) : WMState × List Effect :=
  let st1 := if hasClient st clientId then updateHeartbeat st clientId now else st
  let logRecv := Effect.logInfo ("Received from " ++ clientId ++ ": " ++ raw)
  if isHeartbeatMessage raw then
    (st1, [logRecv, Effect.logInfo ("Received heartbeat from " ++ clientId)])
  else
    match forwarder with
    | none => (st1, [logRecv])
    | some fwd =>
      match parse raw with
      | none => (st1, [logRecv, Effect.logError "Error processing message:"])
      | some parsedData =>
        let success := fwd parsedData
        if success then
          let r := receiveData st1 parsedData Source.pilot msgId ts
          (st1, [logRecv, Effect.forwardCall parsedData] ++ r.1)
        else
          (st1, [logRecv, Effect.forwardCall parsedData])

/-- Handler for the close event: log and delete the connection. -/
def handleClose (st : WMState) (clientId : String) : WMState × List Effect :=
  (deleteClient st clientId,
   [Effect.logInfo ("Client " ++ clientId ++ " disconnected")])

/-- Handler for the error event: log the error only; the registry is left
untouched. -/
def handleError (st : WMState) (clientId : String) : WMState × List Effect :=
  (st, [Effect.logError ("WebSocket error for client " ++ clientId ++ ":")])

/-- Fate of one connection under checkConnections at time now: removed if the
transport is not open; terminated and removed if inactive strictly longer
than CONNECTION_TIMEOUT; otherwise kept. -/
def sweepClient (now : Nat) (client : WebSocketClient) :
    Option WebSocketClient × List Effect :=
  let timeSinceLastActivity := now - client.lastHeartbeat
  if client.readyState != WS_OPEN then
    (none, [Effect.logInfo ("Removing closed connection: " ++ client.id)])
  else if timeSinceLastActivity > CONNECTION_TIMEOUT then
    (none, [Effect.logInfo ("Client " ++ client.id ++ " timeout, disconnecting"),
            Effect.terminate client.id])
  else
    (some client, [])

/-- Method checkConnections(): one pass over the clients map at time now (a
Map.forEach with in-place deletion of the visited entry, so the fate of each
entry depends only on that entry). -/
def checkConnections (st : WMState) (now : Nat) : WMState × List Effect :=
  let results := st.clients.map (sweepClient now)
  ({ clients := results.filterMap Prod.fst },
   (results.map Prod.snd).flatten)

/-- Projection of an effect list to the forwarded payloads it contains. -/
def forwardCalls (effs : List Effect) : List MessagesDataItem :=
  effs.filterMap (fun e => match e with
    | Effect.forwardCall p => some p
    | _ => none)

/-- Predicate selecting transport send effects. -/
def isSend (e : Effect) : Bool :=
  match e with
  | Effect.send _ _ => true
  | _ => false

/-- Projection of an effect list to its transport send effects. -/
def sends (effs : List Effect) : List Effect :=
  effs.filter isSend

/-- Registration state closed over by createHumanoidServer: isRegistered and
lastHeartbeatTime (called lastHeartbeatAck in the specification). -/
structure RegState where
  isRegistered : Bool
  lastHeartbeatTime : Nat
deriving DecidableEq, Repr

/-- Initialization at server construction time t: isRegistered = false and
lastHeartbeatTime = new Date(). -/
def initialRegState (t : Nat) : RegState :=
  { isRegistered := false, lastHeartbeatTime := t }

/-- Outbound HTTP calls createHumanoidServer makes to the orchestrator. -/
inductive OutCall
  | register
  | heartbeat
  | publish (message : MessagesDataItem)
deriving DecidableEq, Repr

/-- Body of one runHeartbeat tick, firing at time now; netOk tells whether the
axios POST of this tick resolves (a rejection lands in the catch block and is
only logged). Returns the updated state and the calls issued this tick. -/
def heartbeatTick (reg : RegState) (now : Nat) (netOk : Bool) :
    RegState × List OutCall :=
  let reg1 :=
    if reg.isRegistered ∧ now - reg.lastHeartbeatTime > HEARTBEAT_INTERVAL * 3
    then { reg with isRegistered := false }
    else reg
  if reg1.isRegistered then
    if netOk then ({ reg1 with lastHeartbeatTime := now }, [OutCall.heartbeat])
    else (reg1, [OutCall.heartbeat])
  else
    (reg1, [OutCall.register])

/-- JSON body sent by a response of the HTTP surface. -/
structure JsonResponse where
  success : Bool
  message : Option String := none
  error : Option String := none
deriving DecidableEq, Repr

/-- Request body of POST /webhook/orchestrator: either the registration
acknowledgment (cmd = "registered") or a MessagesDataItem. -/
inductive WebhookBody
  | registeredCmd
  | dataItem (m : MessagesDataItem)
deriving DecidableEq, Repr

/-- Result of the /webhook/orchestrator handler. -/
structure WebhookResult where
  reg : RegState
  effects : List Effect
  response : JsonResponse
deriving DecidableEq, Repr

/-- Handler of POST /webhook/orchestrator: when the body carries
cmd = "registered", set isRegistered = true (and touch nothing else) and
answer success:true, message:"ok"; otherwise hand the body to
receiveData(body, humanoid) and answer according to the returned boolean. -/
def webhookOrchestrator (reg : RegState) (st : WMState) (body : WebhookBody)
    (msgId ts : String) : WebhookResult :=
  match body with
  | WebhookBody.registeredCmd =>
    { reg := { reg with isRegistered := true },
      effects := [],
      response := { success := true, message := some "ok" } }
  | WebhookBody.dataItem m =>
    let r := receiveData st m Source.humanoid msgId ts
    if r.2 then
      { reg := reg, effects := r.1,
        response := { success := true, message := some "ok" } }
    else
      { reg := reg, effects := r.1,
        response := { success := false, error := some "Error or not connected" } }

/-- Self-rescheduling loop started by listen() at time t0: runHeartbeat arms a
one-shot timer of delay HEARTBEAT_INTERVAL; the body fires, issues its call,
and re-arms itself from the finally block. Parameter net gives the network
outcome and dur the body duration (latency of the awaited call) of each tick.
Returns, after n completed ticks, the registration state, the time at which
the next timer was armed, and the timestamped calls issued so far. -/
def loopTrace (reg0 : RegState) (t0 : Nat) (net : Nat → Bool) (dur : Nat → Nat) :
    Nat → RegState × Nat × List (Nat × OutCall)
  | 0 => (reg0, t0, [])
  | n + 1 =>
    let prev := loopTrace reg0 t0 net dur n
    let fireTime := prev.2.1 + HEARTBEAT_INTERVAL
    let step := heartbeatTick prev.1 fireTime (net n)
    (step.1, fireTime + dur n,
     prev.2.2 ++ step.2.map (fun c => (fireTime, c)))

/-- Fixture: a concrete structured payload for concrete scenarios. -/
def sampleItem : MessagesDataItem := { type := MsgType.text, data := some "hello" }

/-- Fixture: registry tracking one open connection "c2" (and no "c1"). -/
def oneClientState : WMState :=
  { clients := [⟨"c2", WS_OPEN, 0, 0⟩] }

/-- Fixture: registry with three tracked connections of which exactly one
("b", ready state 3 = CLOSED) is not open. -/
def threeClientState : WMState :=
  { clients := [⟨"a", WS_OPEN, 0, 0⟩, ⟨"b", 3, 0, 0⟩, ⟨"c", WS_OPEN, 0, 0⟩] }

/-- Fixture: a concrete RelayMessage envelope. -/
def sampleEnvelope : MessageClient :=
  { id := "m1", type := MsgType.text, data := sampleItem,
    timestamp := "t1", source := Source.pilot }

theorem mem_broadcast_iff (st : WMState) (m : MessageClient) (e : Effect) :
    e ∈ broadcast st m ↔
      ∃ c, c ∈ st.clients ∧ c.readyState = WS_OPEN ∧
        e = Effect.send c.id (stringifyMessage m) := by
  simp only [broadcast, List.mem_filterMap]
  constructor
  · rintro ⟨c, hc, hfc⟩
    by_cases h : c.readyState == WS_OPEN
    · refine ⟨c, hc, by simpa using h, ?_⟩
      simp only [h, if_true] at hfc
      exact (Option.some.injEq _ _ ▸ hfc).symm
    · simp [h] at hfc
  · rintro ⟨c, hc, hopen, rfl⟩
    exact ⟨c, hc, by simp [hopen]⟩

theorem sends_broadcast (st : WMState) (m : MessageClient) :
    sends (broadcast st m) = broadcast st m := by
  refine List.filter_eq_self.mpr ?_
  intro e he
  rcases (mem_broadcast_iff st m e).mp he with ⟨c, -, -, rfl⟩
  rfl

theorem forwardCalls_broadcast (st : WMState) (m : MessageClient) :
    forwardCalls (broadcast st m) = [] := by
  refine List.filterMap_eq_nil_iff.mpr ?_
  intro e he
  rcases (mem_broadcast_iff st m e).mp he with ⟨c, -, -, rfl⟩
  rfl

/-- C2: receiveData always constructs the RelayMessage envelope from the item
and the given source, broadcasts it, and returns false; consequently a POST
/webhook/orchestrator carrying a MessagesDataItem is answered with the body
success:false, error:"Error or not connected", even though the broadcast
effects did happen. -/
theorem receiveData_returns_false_and_broadcasts
    (reg : RegState) (st : WMState) (m : MessagesDataItem) (source : Source)
    (msgId ts : String) :
    (receiveData st m source msgId ts).2 = false
    ∧ (receiveData st m source msgId ts).1
        = broadcast st { id := msgId, type := m.type, data := m,
                         timestamp := ts, source := source }
    ∧ (webhookOrchestrator reg st (WebhookBody.dataItem m) msgId ts).response
        = { success := false, message := none,
            error := some "Error or not connected" }
    ∧ (webhookOrchestrator reg st (WebhookBody.dataItem m) msgId ts).effects
        = broadcast st { id := msgId, type := m.type, data := m,
                         timestamp := ts, source := Source.humanoid } :=
  ⟨rfl, rfl, rfl, rfl⟩

/-- C8: broadcast serializes the message once and sends that identical
serialized payload to every tracked connection whose transport is open, and
every send it emits targets an open tracked connection with that same
payload; with three tracked connections of which exactly one is closed,
exactly two sends are emitted. -/
theorem broadcast_targets_open_connections (st : WMState) (m : MessageClient) :
    (∀ c, c ∈ st.clients → c.readyState = WS_OPEN →
        Effect.send c.id (stringifyMessage m) ∈ broadcast st m)
    ∧ (∀ e, e ∈ broadcast st m → ∃ c, c ∈ st.clients ∧ c.readyState = WS_OPEN ∧
        e = Effect.send c.id (stringifyMessage m))
    ∧ (broadcast threeClientState m).length = 2 := by
  refine ⟨?_, ?_, ?_⟩
  · intro c hc hopen
    exact (mem_broadcast_iff st m _).mpr ⟨c, hc, hopen, rfl⟩
  · intro e he
    exact (mem_broadcast_iff st m e).mp he
  · rfl

/-- Witness for C8 at a concrete open connection of the three-client fixture. -/
theorem broadcast_targets_open_connections_witness :
    Effect.send "a" (stringifyMessage sampleEnvelope)
      ∈ broadcast threeClientState sampleEnvelope :=
  (broadcast_targets_open_connections threeClientState sampleEnvelope).1
    ⟨"a", WS_OPEN, 0, 0⟩ (by simp [threeClientState]) rfl

/-- C6: on a heartbeat tick where the link is Registered and the last
acknowledgment is stale (now - lastHeartbeatAck > 3 heartbeat intervals), the
state flips to Unregistered before any send of that tick, and no heartbeat
call is issued that tick (a register call is sent instead). -/
theorem heartbeatTick_stale_flips_before_send
    (reg : RegState) (now : Nat) (netOk : Bool)
    (hreg : reg.isRegistered = true)
    (hstale : now - reg.lastHeartbeatTime > HEARTBEAT_INTERVAL * 3) :
    (heartbeatTick reg now netOk).1.isRegistered = false
    ∧ (heartbeatTick reg now netOk).2 = [OutCall.register]
    ∧ OutCall.heartbeat ∉ (heartbeatTick reg now netOk).2 := by
  simp [heartbeatTick, hreg, hstale]

/-- Witness for C6: Registered with last acknowledgment at time 0, tick firing
at 90001 (staleness 90001 > 90000 = 3 H). -/
theorem heartbeatTick_stale_flips_before_send_witness :
    (heartbeatTick ⟨true, 0⟩ 90001 true).1.isRegistered = false
    ∧ (heartbeatTick ⟨true, 0⟩ 90001 true).2 = [OutCall.register]
    ∧ OutCall.heartbeat ∉ (heartbeatTick ⟨true, 0⟩ 90001 true).2 :=
  heartbeatTick_stale_flips_before_send ⟨true, 0⟩ 90001 true rfl (by decide)

theorem loopTrace_armTime_ge (reg0 : RegState) (t0 : Nat) (net : Nat → Bool)
    (dur : Nat → Nat) : ∀ n, t0 ≤ (loopTrace reg0 t0 net dur n).2.1 := by
  intro n
  induction n with
  | zero => exact Nat.le_refl t0
  | succ k ih =>
    simp only [loopTrace]
    omega

/-- C10: every outbound orchestrator call of the loop started by listen() at
time t0 happens at a time at least t0 + HEARTBEAT_INTERVAL and strictly after
t0 (no register call is sent immediately at startup, the first tick body runs
only after the one-shot timer delay); from the initial Unregistered state the
first completed tick issues exactly one register call at t0 +
HEARTBEAT_INTERVAL. -/
theorem loop_first_call_delayed (reg0 : RegState) (t0 : Nat) (net : Nat → Bool)
    (dur : Nat → Nat) :
    (∀ n e, e ∈ (loopTrace reg0 t0 net dur n).2.2 →
        t0 + HEARTBEAT_INTERVAL ≤ e.1 ∧ t0 < e.1)
    ∧ ∀ tInit, (loopTrace (initialRegState tInit) t0 net dur 1).2.2
        = [(t0 + HEARTBEAT_INTERVAL, OutCall.register)] := by
  constructor
  · intro n
    induction n with
    | zero =>
      intro e he
      simp [loopTrace] at he
    | succ k ih =>
      intro e he
      simp only [loopTrace, List.mem_append, List.mem_map] at he
      rcases he with h | ⟨c, hc, heq⟩
      · exact ih e h
      · have harm := loopTrace_armTime_ge reg0 t0 net dur k
        have h1 : e.1 = (loopTrace reg0 t0 net dur k).2.1 + HEARTBEAT_INTERVAL := by
          rw [← heq]
        rw [h1]
        simp only [HEARTBEAT_INTERVAL]
        omega
  · intro tInit
    simp [loopTrace, heartbeatTick, initialRegState]

/-- Witness for C10: with an always-resolving network and instantaneous call
bodies, the single call of the first tick from t0 = 0 is at time 30000. -/
theorem loop_first_call_delayed_witness :
    (0 : Nat) + HEARTBEAT_INTERVAL ≤ 30000 ∧ (0 : Nat) < 30000 :=
  (loop_first_call_delayed (initialRegState 0) 0 (fun _ => true) (fun _ => 0)).1
    1 (30000, OutCall.register) (by decide)

/-- C1 counterexample: from lastHeartbeatAck = 5, at a current time of 100 the
acknowledgment cmd = "registered" sets the state to Registered but leaves
lastHeartbeatAck at 5 — the handler never stamps it to the current time,
contradicting the claim that the acknowledgment stamps lastHeartbeatAck. -/
theorem webhook_registered_does_not_stamp_cex :
    (webhookOrchestrator ⟨false, 5⟩ oneClientState WebhookBody.registeredCmd
        "m" "t").reg.isRegistered = true
    ∧ (webhookOrchestrator ⟨false, 5⟩ oneClientState WebhookBody.registeredCmd
        "m" "t").reg.lastHeartbeatTime = 5
    ∧ (5 : Nat) ≠ 100 :=
  ⟨rfl, rfl, by decide⟩

/-- C1 amended: the transition Unregistered → Registered occurs only upon the
external acknowledgment delivered via the webhook — a tick in the
Unregistered state sends a register call and leaves the state Unregistered
regardless of the call outcome — and the acknowledgment sets the state to
Registered while leaving lastHeartbeatAck unchanged (it does not stamp it to
the current time). -/
theorem registration_only_via_webhook_ack
    (reg : RegState) (st : WMState) (now : Nat) (netOk : Bool)
    (msgId ts : String) (hunreg : reg.isRegistered = false) :
    (heartbeatTick reg now netOk).1.isRegistered = false
    ∧ (heartbeatTick reg now netOk).2 = [OutCall.register]
    ∧ (webhookOrchestrator reg st WebhookBody.registeredCmd msgId ts).reg.isRegistered
        = true
    ∧ (webhookOrchestrator reg st WebhookBody.registeredCmd msgId ts).reg.lastHeartbeatTime
        = reg.lastHeartbeatTime := by
  refine ⟨?_, ?_, rfl, rfl⟩ <;> simp [heartbeatTick, hunreg]

/-- Witness for C1 amended at the concrete state of the counterexample. -/
theorem registration_only_via_webhook_ack_witness :
    (heartbeatTick ⟨false, 5⟩ 100 true).1.isRegistered = false
    ∧ (heartbeatTick ⟨false, 5⟩ 100 true).2 = [OutCall.register]
    ∧ (webhookOrchestrator ⟨false, 5⟩ oneClientState WebhookBody.registeredCmd
        "m" "t").reg.isRegistered = true
    ∧ (webhookOrchestrator ⟨false, 5⟩ oneClientState WebhookBody.registeredCmd
        "m" "t").reg.lastHeartbeatTime = (5 : Nat) :=
  registration_only_via_webhook_ack ⟨false, 5⟩ oneClientState 100 true "m" "t" rfl

theorem forwardCalls_nil : forwardCalls [] = [] := rfl

theorem forwardCalls_cons_logInfo (s : String) (l : List Effect) :
    forwardCalls (Effect.logInfo s :: l) = forwardCalls l := rfl

theorem forwardCalls_cons_logError (s : String) (l : List Effect) :
    forwardCalls (Effect.logError s :: l) = forwardCalls l := rfl

theorem forwardCalls_cons_call (p : MessagesDataItem) (l : List Effect) :
    forwardCalls (Effect.forwardCall p :: l) = p :: forwardCalls l := rfl

theorem sends_nil : sends [] = [] := rfl

theorem sends_cons_logInfo (s : String) (l : List Effect) :
    sends (Effect.logInfo s :: l) = sends l := rfl

theorem sends_cons_logError (s : String) (l : List Effect) :
    sends (Effect.logError s :: l) = sends l := rfl

theorem sends_cons_call (p : MessagesDataItem) (l : List Effect) :
    sends (Effect.forwardCall p :: l) = sends l := rfl

theorem hasClient_updateHeartbeat (st : WMState) (cid cid2 : String) (now : Nat) :
    hasClient (updateHeartbeat st cid now) cid2 = hasClient st cid2 := by
  unfold hasClient updateHeartbeat
  rw [List.any_map]
  congr 1
  funext c
  by_cases h : c.id == cid <;> simp [h, Function.comp]

theorem handleMessage_parsed_eq (st : WMState) (clientId raw : String)
    (parse : String → Option MessagesDataItem) (fwd : MessagesDataItem → Bool)
    (now : Nat) (msgId ts : String) (m : MessagesDataItem)
    (hraw : isHeartbeatMessage raw = false)
    (hparse : parse raw = some m) :
    handleMessage st clientId raw parse (some fwd) now msgId ts
      = (if hasClient st clientId then updateHeartbeat st clientId now else st,
         [Effect.logInfo ("Received from " ++ clientId ++ ": " ++ raw),
          Effect.forwardCall m]
         ++ (if fwd m then
              broadcast
                (if hasClient st clientId then updateHeartbeat st clientId now
                 else st)
                { id := msgId, type := m.type, data := m, timestamp := ts,
                  source := Source.pilot }
             else [])) := by
  simp only [handleMessage, hraw, hparse, receiveData]
  cases h : fwd m <;> simp [h]

theorem handleMessage_unparsed_eq (st : WMState) (clientId raw : String)
    (parse : String → Option MessagesDataItem) (fwd : MessagesDataItem → Bool)
    (now : Nat) (msgId ts : String)
    (hraw : isHeartbeatMessage raw = false)
    (hparse : parse raw = none) :
    handleMessage st clientId raw parse (some fwd) now msgId ts
      = (if hasClient st clientId then updateHeartbeat st clientId now else st,
         [Effect.logInfo ("Received from " ++ clientId ++ ": " ++ raw),
          Effect.logError "Error processing message:"]) := by
  simp only [handleMessage, hraw, hparse]
  simp

/-- C5: for every inbound frame that is not the liveness marker and parses as
JSON, the supplied forwarder is called exactly once; a RelayMessage tagged
source = pilot is constructed and broadcast exactly when the forwarder
reports success, and with a failing forwarder no send is emitted. -/
theorem forwarder_called_once_broadcast_iff_success
    (st : WMState) (clientId raw : String)
    (parse : String → Option MessagesDataItem) (fwd : MessagesDataItem → Bool)
    (now : Nat) (msgId ts : String) (m : MessagesDataItem)
    (hraw : isHeartbeatMessage raw = false)
    (hparse : parse raw = some m) :
    forwardCalls (handleMessage st clientId raw parse (some fwd) now msgId ts).2
      = [m]
    ∧ (fwd m = true →
        sends (handleMessage st clientId raw parse (some fwd) now msgId ts).2
          = broadcast (handleMessage st clientId raw parse (some fwd) now msgId ts).1
              { id := msgId, type := m.type, data := m, timestamp := ts,
                source := Source.pilot })
    ∧ (fwd m = false →
        sends (handleMessage st clientId raw parse (some fwd) now msgId ts).2
          = []) := by
  rw [handleMessage_parsed_eq st clientId raw parse fwd now msgId ts m hraw hparse]
  refine ⟨?_, ?_, ?_⟩
  · cases h : fwd m <;>
      simp [h, forwardCalls_cons_logInfo, forwardCalls_cons_call,
        forwardCalls_broadcast, forwardCalls_nil]
  · intro h
    simp [h, sends_cons_logInfo, sends_cons_call, sends_broadcast]
  · intro h
    simp [h, sends_cons_logInfo, sends_cons_call, sends_nil]

/-- Witness for C5 on the one-client fixture with an always-succeeding
forwarder and a frame parsing to the sample payload. -/
theorem forwarder_called_once_broadcast_iff_success_witness :
    forwardCalls (handleMessage oneClientState "c2" "x"
        (fun _ => some sampleItem) (some (fun _ => true)) 7 "m1" "t1").2
      = [sampleItem]
    ∧ ((fun _ : MessagesDataItem => true) sampleItem = true →
        sends (handleMessage oneClientState "c2" "x"
            (fun _ => some sampleItem) (some (fun _ => true)) 7 "m1" "t1").2
          = broadcast (handleMessage oneClientState "c2" "x"
                (fun _ => some sampleItem) (some (fun _ => true)) 7 "m1" "t1").1
              { id := "m1", type := sampleItem.type, data := sampleItem,
                timestamp := "t1", source := Source.pilot })
    ∧ ((fun _ : MessagesDataItem => true) sampleItem = false →
        sends (handleMessage oneClientState "c2" "x"
            (fun _ => some sampleItem) (some (fun _ => true)) 7 "m1" "t1").2
          = []) :=
  forwarder_called_once_broadcast_iff_success oneClientState "c2" "x"
    (fun _ => some sampleItem) (fun _ => true) 7 "m1" "t1" sampleItem
    (by decide) rfl

/-- C9: an inbound frame that is neither the liveness marker nor valid JSON
yields a logged error, no forwarder invocation and no send; the connection
remains exactly as tracked as before; and a subsequent valid frame on the
same connection still has its forwarder invoked exactly once. -/
theorem malformed_frame_logged_and_dropped
    (st : WMState) (clientId raw raw2 : String)
    (parse parse2 : String → Option MessagesDataItem)
    (fwd : MessagesDataItem → Bool)
    (now now2 : Nat) (msgId ts msgId2 ts2 : String) (m2 : MessagesDataItem)
    (hraw : isHeartbeatMessage raw = false)
    (hparse : parse raw = none)
    (hraw2 : isHeartbeatMessage raw2 = false)
    (hparse2 : parse2 raw2 = some m2) :
    Effect.logError "Error processing message:"
      ∈ (handleMessage st clientId raw parse (some fwd) now msgId ts).2
    ∧ forwardCalls (handleMessage st clientId raw parse (some fwd) now msgId ts).2
        = []
    ∧ sends (handleMessage st clientId raw parse (some fwd) now msgId ts).2 = []
    ∧ hasClient (handleMessage st clientId raw parse (some fwd) now msgId ts).1
        clientId = hasClient st clientId
    ∧ forwardCalls (handleMessage
          (handleMessage st clientId raw parse (some fwd) now msgId ts).1
          clientId raw2 parse2 (some fwd) now2 msgId2 ts2).2 = [m2] := by
  rw [handleMessage_unparsed_eq st clientId raw parse fwd now msgId ts hraw hparse]
  refine ⟨by simp, rfl, rfl, ?_, ?_⟩
  · by_cases h : hasClient st clientId <;> simp [h, hasClient_updateHeartbeat]
  · rw [handleMessage_parsed_eq _ clientId raw2 parse2 fwd now2 msgId2 ts2 m2
      hraw2 hparse2]
    cases h : fwd m2 <;>
      simp [h, forwardCalls_cons_logInfo, forwardCalls_cons_call,
        forwardCalls_broadcast, forwardCalls_nil]

/-- Witness for C9: the malformed frame "not json" followed by a valid frame,
on the tracked connection of the one-client fixture. -/
theorem malformed_frame_logged_and_dropped_witness :
    Effect.logError "Error processing message:"
      ∈ (handleMessage oneClientState "c2" "not json" (fun _ => none)
          (some (fun _ => true)) 7 "m1" "t1").2
    ∧ forwardCalls (handleMessage oneClientState "c2" "not json" (fun _ => none)
        (some (fun _ => true)) 7 "m1" "t1").2 = []
    ∧ sends (handleMessage oneClientState "c2" "not json" (fun _ => none)
        (some (fun _ => true)) 7 "m1" "t1").2 = []
    ∧ hasClient (handleMessage oneClientState "c2" "not json" (fun _ => none)
        (some (fun _ => true)) 7 "m1" "t1").1 "c2" = hasClient oneClientState "c2"
    ∧ forwardCalls (handleMessage
        (handleMessage oneClientState "c2" "not json" (fun _ => none)
          (some (fun _ => true)) 7 "m1" "t1").1
        "c2" "x" (fun _ => some sampleItem) (some (fun _ => true)) 8 "m2" "t2").2
      = [sampleItem] :=
  malformed_frame_logged_and_dropped oneClientState "c2" "not json" "x"
    (fun _ => none) (fun _ => some sampleItem) (fun _ => true) 7 8
    "m1" "t1" "m2" "t2" sampleItem (by decide) rfl (by decide) rfl

/-- C3 counterexample: a valid JSON frame attributed to the untracked
connection id "c1", with a succeeding forwarder, is not a no-op: the
forwarder is invoked and the broadcast sends the envelope to the tracked open
connection "c2". -/
theorem reaped_connection_frame_not_noop_cex :
    hasClient oneClientState "c1" = false
    ∧ forwardCalls (handleMessage oneClientState "c1" "x"
        (fun _ => some sampleItem) (some (fun _ => true)) 7 "m1" "t1").2
      = [sampleItem]
    ∧ (sends (handleMessage oneClientState "c1" "x"
        (fun _ => some sampleItem) (some (fun _ => true)) 7 "m1" "t1").2).length
      = 1 := by
  decide

/-- C3 amended: a raw frame arriving for a connection id no longer tracked
skips only the lastHeartbeat stamp — the registry state is left unchanged —
but the frame is otherwise processed normally: for a non-marker JSON frame
the forwarder is still invoked exactly once and the RelayMessage broadcast
still occurs exactly when the forwarder succeeds. -/
theorem reaped_connection_frame_skips_stamp_only
    (st : WMState) (clientId raw : String)
    (parse : String → Option MessagesDataItem) (fwd : MessagesDataItem → Bool)
    (now : Nat) (msgId ts : String) (m : MessagesDataItem)
    (huntracked : hasClient st clientId = false)
    (hraw : isHeartbeatMessage raw = false)
    (hparse : parse raw = some m) :
    (handleMessage st clientId raw parse (some fwd) now msgId ts).1 = st
    ∧ forwardCalls (handleMessage st clientId raw parse (some fwd) now msgId ts).2
        = [m]
    ∧ (fwd m = true →
        sends (handleMessage st clientId raw parse (some fwd) now msgId ts).2
          = broadcast st { id := msgId, type := m.type, data := m,
                           timestamp := ts, source := Source.pilot })
    ∧ (fwd m = false →
        sends (handleMessage st clientId raw parse (some fwd) now msgId ts).2
          = []) := by
  rw [handleMessage_parsed_eq st clientId raw parse fwd now msgId ts m hraw hparse]
  refine ⟨by simp [huntracked], ?_, ?_, ?_⟩
  · cases h : fwd m <;>
      simp [h, forwardCalls_cons_logInfo, forwardCalls_cons_call,
        forwardCalls_broadcast, forwardCalls_nil]
  · intro h
    simp [h, huntracked, sends_cons_logInfo, sends_cons_call, sends_broadcast]
  · intro h
    simp [h, sends_cons_logInfo, sends_cons_call, sends_nil]

/-- Witness for C3 amended on the concrete scenario of the counterexample. -/
theorem reaped_connection_frame_skips_stamp_only_witness :
    (handleMessage oneClientState "c1" "x" (fun _ => some sampleItem)
        (some (fun _ => true)) 7 "m1" "t1").1 = oneClientState
    ∧ forwardCalls (handleMessage oneClientState "c1" "x"
        (fun _ => some sampleItem) (some (fun _ => true)) 7 "m1" "t1").2
      = [sampleItem]
    ∧ ((fun _ : MessagesDataItem => true) sampleItem = true →
        sends (handleMessage oneClientState "c1" "x"
            (fun _ => some sampleItem) (some (fun _ => true)) 7 "m1" "t1").2
          = broadcast oneClientState
              { id := "m1", type := sampleItem.type, data := sampleItem,
                timestamp := "t1", source := Source.pilot })
    ∧ ((fun _ : MessagesDataItem => true) sampleItem = false →
        sends (handleMessage oneClientState "c1" "x"
            (fun _ => some sampleItem) (some (fun _ => true)) 7 "m1" "t1").2
          = []) :=
  reaped_connection_frame_skips_stamp_only oneClientState "c1" "x"
    (fun _ => some sampleItem) (fun _ => true) 7 "m1" "t1" sampleItem
    (by decide) (by decide) rfl

theorem sweepClient_eq_some_iff (now : Nat) (c c2 : WebSocketClient) :
    (sweepClient now c).1 = some c2 ↔
      c2 = c ∧ c.readyState = WS_OPEN
        ∧ now - c.lastHeartbeat ≤ CONNECTION_TIMEOUT := by
  unfold sweepClient
  by_cases h1 : c.readyState = WS_OPEN
  · by_cases h2 : now - c.lastHeartbeat > CONNECTION_TIMEOUT
    · simp [h1, h2, Nat.not_le.mpr h2]
    · simp [h1, h2, Nat.not_lt.mp h2]
      exact eq_comm
  · simp [bne_iff_ne, h1]

theorem mem_checkConnections_iff (st : WMState) (now : Nat)
    (c : WebSocketClient) :
    c ∈ (checkConnections st now).1.clients ↔
      c ∈ st.clients ∧ c.readyState = WS_OPEN
        ∧ now - c.lastHeartbeat ≤ CONNECTION_TIMEOUT := by
  simp only [checkConnections, List.filterMap_map, List.mem_filterMap,
    Function.comp]
  constructor
  · rintro ⟨c2, hc2, hfc⟩
    rcases (sweepClient_eq_some_iff now c2 c).mp hfc with ⟨rfl, hopen, hfresh⟩
    exact ⟨hc2, hopen, hfresh⟩
  · rintro ⟨hc, hopen, hfresh⟩
    exact ⟨c, hc, (sweepClient_eq_some_iff now c c).mpr ⟨rfl, hopen, hfresh⟩⟩

theorem terminate_mem_sweepClient_iff (now : Nat) (c : WebSocketClient)
    (cid : String) :
    Effect.terminate cid ∈ (sweepClient now c).2 ↔
      cid = c.id ∧ c.readyState = WS_OPEN
        ∧ now - c.lastHeartbeat > CONNECTION_TIMEOUT := by
  unfold sweepClient
  by_cases h1 : c.readyState = WS_OPEN
  · by_cases h2 : now - c.lastHeartbeat > CONNECTION_TIMEOUT
    · simp [h1, h2]
    · simp [h1, h2]
  · simp [bne_iff_ne, h1]

theorem terminate_mem_checkConnections_iff (st : WMState) (now : Nat)
    (cid : String) :
    Effect.terminate cid ∈ (checkConnections st now).2 ↔
      ∃ c, c ∈ st.clients ∧ cid = c.id ∧ c.readyState = WS_OPEN ∧
        now - c.lastHeartbeat > CONNECTION_TIMEOUT := by
  simp only [checkConnections, List.map_map, List.mem_flatten, List.mem_map,
    Function.comp]
  constructor
  · rintro ⟨l, ⟨c, hc, rfl⟩, hmem⟩
    rcases (terminate_mem_sweepClient_iff now c cid).mp hmem with ⟨h1, h2, h3⟩
    exact ⟨c, hc, h1, h2, h3⟩
  · rintro ⟨c, hc, h1, h2, h3⟩
    exact ⟨(sweepClient now c).2, ⟨c, hc, rfl⟩,
      (terminate_mem_sweepClient_iff now c cid).mpr ⟨h1, h2, h3⟩⟩

/-- C4 counterexample: after the transport error event of the tracked
connection "c2", the registry is unchanged and "c2" is still tracked — the
error handler only logs; the connection is not destroyed on the error
event. -/
theorem error_event_leaves_connection_tracked_cex :
    (handleError oneClientState "c2").1 = oneClientState
    ∧ hasClient (handleError oneClientState "c2").1 "c2" = true := by
  decide

/-- C4 amended: a tracked connection is destroyed on the close event of its
transport and by the liveness sweep (once the transport is not open, or on
timeout); the error event of the transport only logs and leaves the registry
unchanged, so after an error event the connection is still tracked until a
sweep observes the transport closed. -/
theorem connection_destroyed_on_close_and_timeout_not_error
    (st : WMState) (clientId : String) (c : WebSocketClient) (now : Nat)
    (hc : c ∈ st.clients) :
    hasClient (handleClose st clientId).1 clientId = false
    ∧ (handleError st clientId).1 = st
    ∧ (c.readyState ≠ WS_OPEN → c ∉ (checkConnections st now).1.clients)
    ∧ (now - c.lastHeartbeat > CONNECTION_TIMEOUT →
        c ∉ (checkConnections st now).1.clients) := by
  refine ⟨?_, rfl, ?_, ?_⟩
  · unfold handleClose deleteClient hasClient
    simp only [List.any_eq_false, List.mem_filter, bne_iff_ne, beq_iff_eq]
    intro c2 hc2
    exact hc2.2
  · intro hnopen hmem
    exact hnopen ((mem_checkConnections_iff st now c).mp hmem).2.1
  · intro hstale hmem
    exact absurd ((mem_checkConnections_iff st now c).mp hmem).2.2
      (Nat.not_le.mpr hstale)

/-- Witness for C4 amended: a closed-transport connection and a stale
connection are both removed by the sweep, the close handler removes, the
error handler does not. -/
theorem connection_destroyed_on_close_and_timeout_not_error_witness :
    hasClient (handleClose threeClientState "b").1 "b" = false
    ∧ (handleError threeClientState "b").1 = threeClientState
    ∧ ((⟨"b", 3, 0, 0⟩ : WebSocketClient).readyState ≠ WS_OPEN →
        (⟨"b", 3, 0, 0⟩ : WebSocketClient)
          ∉ (checkConnections threeClientState 100).1.clients)
    ∧ (100 - (⟨"b", 3, 0, 0⟩ : WebSocketClient).lastHeartbeat
          > CONNECTION_TIMEOUT →
        (⟨"b", 3, 0, 0⟩ : WebSocketClient)
          ∉ (checkConnections threeClientState 100).1.clients) :=
  connection_destroyed_on_close_and_timeout_not_error threeClientState "b"
    ⟨"b", 3, 0, 0⟩ 100 (by decide)

/-- C7: the sweep runs with period WS_HEARTBEAT_INTERVAL = 40000 ms and
timeout threshold CONNECTION_TIMEOUT = twice that; on a sweep at time now, a
tracked connection whose transport is not open is removed, a tracked open
connection is terminated and removed exactly when now - lastHeartbeat
strictly exceeds CONNECTION_TIMEOUT and is kept otherwise, and every
terminate effect emitted belongs to a tracked open connection strictly past
the threshold — no connection is terminated for staleness before the tick
that crosses it. -/
theorem sweep_removes_closed_and_times_out_exactly
    (st : WMState) (now : Nat) (c : WebSocketClient) (hc : c ∈ st.clients) :
    WS_HEARTBEAT_INTERVAL = 40000
    ∧ CONNECTION_TIMEOUT = 2 * WS_HEARTBEAT_INTERVAL
    ∧ (c.readyState ≠ WS_OPEN → c ∉ (checkConnections st now).1.clients)
    ∧ (c.readyState = WS_OPEN → now - c.lastHeartbeat > CONNECTION_TIMEOUT →
        Effect.terminate c.id ∈ (checkConnections st now).2
        ∧ c ∉ (checkConnections st now).1.clients)
    ∧ (c.readyState = WS_OPEN → now - c.lastHeartbeat ≤ CONNECTION_TIMEOUT →
        c ∈ (checkConnections st now).1.clients)
    ∧ (∀ cid, Effect.terminate cid ∈ (checkConnections st now).2 →
        ∃ c2, c2 ∈ st.clients ∧ cid = c2.id ∧ c2.readyState = WS_OPEN ∧
          now - c2.lastHeartbeat > CONNECTION_TIMEOUT) := by
  refine ⟨rfl, rfl, ?_, ?_, ?_, ?_⟩
  · intro hnopen hmem
    exact hnopen ((mem_checkConnections_iff st now c).mp hmem).2.1
  · intro hopen hstale
    refine ⟨(terminate_mem_checkConnections_iff st now c.id).mpr
      ⟨c, hc, rfl, hopen, hstale⟩, ?_⟩
    intro hmem
    exact absurd ((mem_checkConnections_iff st now c).mp hmem).2.2
      (Nat.not_le.mpr hstale)
  · intro hopen hfresh
    exact (mem_checkConnections_iff st now c).mpr ⟨hc, hopen, hfresh⟩
  · intro cid hmem
    exact (terminate_mem_checkConnections_iff st now cid).mp hmem

/-- Witness for C7: the sweep at time 100000 of a registry holding one open
stale connection (last heartbeat 0, staleness 100000 > 80000) terminates and
removes it. -/
theorem sweep_removes_closed_and_times_out_exactly_witness :
    WS_HEARTBEAT_INTERVAL = 40000
    ∧ CONNECTION_TIMEOUT = 2 * WS_HEARTBEAT_INTERVAL
    ∧ ((⟨"c2", WS_OPEN, 0, 0⟩ : WebSocketClient).readyState ≠ WS_OPEN →
        (⟨"c2", WS_OPEN, 0, 0⟩ : WebSocketClient)
          ∉ (checkConnections oneClientState 100000).1.clients)
    ∧ ((⟨"c2", WS_OPEN, 0, 0⟩ : WebSocketClient).readyState = WS_OPEN →
        100000 - (⟨"c2", WS_OPEN, 0, 0⟩ : WebSocketClient).lastHeartbeat
            > CONNECTION_TIMEOUT →
        Effect.terminate "c2" ∈ (checkConnections oneClientState 100000).2
        ∧ (⟨"c2", WS_OPEN, 0, 0⟩ : WebSocketClient)
            ∉ (checkConnections oneClientState 100000).1.clients)
    ∧ ((⟨"c2", WS_OPEN, 0, 0⟩ : WebSocketClient).readyState = WS_OPEN →
        100000 - (⟨"c2", WS_OPEN, 0, 0⟩ : WebSocketClient).lastHeartbeat
            ≤ CONNECTION_TIMEOUT →
        (⟨"c2", WS_OPEN, 0, 0⟩ : WebSocketClient)
          ∈ (checkConnections oneClientState 100000).1.clients)
    ∧ (∀ cid, Effect.terminate cid ∈ (checkConnections oneClientState 100000).2 →
        ∃ c2, c2 ∈ oneClientState.clients ∧ cid = c2.id
          ∧ c2.readyState = WS_OPEN
          ∧ 100000 - c2.lastHeartbeat > CONNECTION_TIMEOUT) :=
  sweep_removes_closed_and_times_out_exactly oneClientState 100000
    ⟨"c2", WS_OPEN, 0, 0⟩ (by decide)

end HumanoidServer
